import Mathlib

/-!
Verification of the falcon-eye monitoring core against its source
(`app.py`, `database.py`).  The development shallowly embeds:

* the remote stat prober `get_remote_server_stats` (with the SSH layer
  abstracted as an oracle describing what the network does),
* the per-(rule, server) alert evaluation step of `evaluate_alerts`,
* the sample-retention write `store_stats`.

Python floats are modelled by `ℚ` (exact rationals); machine strings by
`String`.  Dictionaries holding the optional configuration keys are
modelled by structures with `Option` fields where `none` stands for an
absent (or falsy) entry, matching the `dict.get` truthiness tests the
source performs.
-/

/-- A server configuration entry (one element of the parsed
`REMOTE_SERVER_i_...` environment family).  `none` models a key that is
absent or falsy in the Python dict. -/
structure ServerConf where
  name : Option String
  host : String
  port : Nat
  user : String
  password : Option String
  key_path : Option String
  key_passphrase : Option String
  jump_server_index : Option String
  disk_path : Option String
  is_local : Bool
deriving Repr, DecidableEq

/-- The argument record built by `get_ssh_connection_args` (app.py lines
612-629). -/
structure SSHArgs where
  hostname : String
  port : Nat
  username : String
  key_filename : Option String
  passphrase : Option String
  password : Option String
deriving Repr, DecidableEq

/-- `get_ssh_connection_args` (app.py 612-629): key-based auth wins over
password auth; with neither available the function returns `None`. -/
def get_ssh_connection_args (c : ServerConf) : Option SSHArgs :=
  match c.key_path with
  | some kp =>
      some { hostname := c.host, port := c.port, username := c.user,
             key_filename := some kp, passphrase := c.key_passphrase, password := none }
  | none =>
      match c.password with
      | some pw =>
          some { hostname := c.host, port := c.port, username := c.user,
                 key_filename := none, passphrase := none, password := some pw }
      | none => none

/-- The probe result dict built by `get_remote_server_stats`
(app.py 646-661 and onwards). -/
structure ProbeResult where
  name : String
  host : String
  status : String
  is_local : Bool
  cpu_percent : ℚ
  cpu_cores : Int
  cpu_model : String
  ram_percent : ℚ
  ram_total_gb : ℚ
  ram_used_gb : ℚ
  disk_percent : ℚ
  disk_total_gb : ℚ
  disk_used_gb : ℚ
  error_message : Option String
deriving Repr, DecidableEq

/-- The initial `base_result` (app.py 646-661). -/
def mkBaseResult (t : ServerConf) : ProbeResult :=
  { name := t.name.getD t.host
    host := t.host
    status := "offline"
    is_local := t.is_local
    cpu_percent := 0
    cpu_cores := 0
    cpu_model := "N/A"
    ram_percent := 0
    ram_total_gb := 0
    ram_used_gb := 0
    disk_percent := 0
    disk_total_gb := 0
    disk_used_gb := 0
    error_message := none }

/-- Python whitespace test (models `str.strip` classes; ASCII space forms). -/
def isPySpace (c : Char) : Bool := c.isWhitespace

/-- Python `s.strip()`: whitespace removed from both ends. -/
def pyStrip (s : String) : String :=
  String.mk (((s.data.dropWhile isPySpace).reverse.dropWhile isPySpace).reverse)

/-- Python `s.upper()` on ASCII data. -/
def pyUpper (s : String) : String :=
  String.mk (s.data.map Char.toUpper)

/-- Python slicing `s[:n]` by code points. -/
def pyTake (n : Nat) (s : String) : String :=
  String.mk (s.data.take n)

/-- Worker for `pySplit`: fuel-indexed structural scan; the fuel argument
is always at least one more than the text length, so the base case is
never reached. -/
def splitOnListGo (sep : List Char) : Nat → List Char → List Char → List (List Char)
  | 0, cs, acc => [acc.reverse ++ cs]
  | _ + 1, [], acc => [acc.reverse]
  | fuel + 1, c :: rest, acc =>
    if sep.isPrefixOf (c :: rest) then
      acc.reverse :: splitOnListGo sep fuel ((c :: rest).drop sep.length) []
    else
      splitOnListGo sep fuel rest (c :: acc)

/-- Python `s.split(sep)` for a non-empty separator (left-to-right,
non-overlapping). -/
def pySplit (s sep : String) : List String :=
  (splitOnListGo sep.data (s.data.length + 1) s.data []).map String.mk

/-- Rational multiplication, addition and division written through
`Rat.divInt` on numerators and denominators (value-equal to the field
operations of `ℚ`; see `ratMul_eq`, `ratAdd_eq`, `ratDiv_eq`). -/
def ratMul (a b : ℚ) : ℚ := Rat.divInt (a.num * b.num) ((a.den : Int) * (b.den : Int))

def ratAdd (a b : ℚ) : ℚ :=
  Rat.divInt (a.num * (b.den : Int) + b.num * (a.den : Int)) ((a.den : Int) * (b.den : Int))

def ratDiv (a b : ℚ) : ℚ := Rat.divInt (a.num * (b.den : Int)) ((a.den : Int) * b.num)

/-- Digits to a natural number (helper for the numeric-literal parsers). -/
def digitsToNat (cs : List Char) : Nat :=
  cs.foldl (fun a c => a * 10 + (c.toNat - 48)) 0

/-- Model of Python `float(s)` on the numeric-literal forms: optional
surrounding whitespace, optional sign, digits with an optional decimal
point, optional exponent.  Returns the exact rational value. -/
def parsePyFloat (s : String) : Option ℚ :=
  let cs := (pyStrip s).data.map Char.toLower
  let signAndRest : Int × List Char :=
    match cs with
    | '+' :: r => (1, r)
    | '-' :: r => (-1, r)
    | r => (1, r)
  let sign := signAndRest.1
  let body := signAndRest.2
  let mant := body.takeWhile (fun c => c != 'e')
  let rest := body.dropWhile (fun c => c != 'e')
  let expVal : Option Int :=
    match rest with
    | [] => some 0
    | _ :: er =>
      let esignAndRest : Int × List Char :=
        match er with
        | '+' :: r => (1, r)
        | '-' :: r => (-1, r)
        | r => (1, r)
      if esignAndRest.2 ≠ [] ∧ esignAndRest.2.all Char.isDigit then
        some (esignAndRest.1 * (digitsToNat esignAndRest.2 : Int))
      else none
  let ip := mant.takeWhile (fun c => c != '.')
  let fpWithDot := mant.dropWhile (fun c => c != '.')
  let fp := match fpWithDot with
    | [] => []
    | _ :: r => r
  if ip.all Char.isDigit ∧ fp.all Char.isDigit ∧ (ip ≠ [] ∨ fp ≠ []) ∧ ¬ fp.contains '.' then
    match expVal with
    | none => none
    | some e =>
      let numBase : Int := (digitsToNat ip : Int) * (10 : Int) ^ fp.length + (digitsToNat fp : Int)
      some (Rat.divInt (sign * numBase * (10 : Int) ^ e.toNat)
        ((10 : Int) ^ fp.length * (10 : Int) ^ (-e).toNat))
  else none

/-- Model of Python `int(s)` on string input: optional surrounding
whitespace, optional sign, a non-empty digit run. -/
def parsePyInt (s : String) : Option Int :=
  match (pyStrip s).data with
  | '+' :: r => if r ≠ [] ∧ r.all Char.isDigit then some (digitsToNat r : Int) else none
  | '-' :: r => if r ≠ [] ∧ r.all Char.isDigit then some (-(digitsToNat r : Int)) else none
  | r => if r ≠ [] ∧ r.all Char.isDigit then some (digitsToNat r : Int) else none

/-- Python `pat in s` for a non-empty pattern. -/
def strContains (s pat : String) : Bool :=
  (pySplit s pat).length != 1

/-- Python `round(q, 2)` (ties are immaterial to every claim below). -/
def pyRound2 (q : ℚ) : ℚ :=
  Rat.divInt ⌊ratAdd (ratMul q 100) (Rat.divInt 1 2)⌋ 100

/-- Python `int()` applied to a float value: truncation toward zero. -/
def pyTrunc (q : ℚ) : Int :=
  if 0 ≤ q then ⌊q⌋ else ⌈q⌉

/-- The delimiter the composite remote command prints between the five
metric outputs (app.py line 751). -/
def STATS_DELIMITER : String := "###STATS_DELIMITER###"

/-- CPU-usage field parsing (app.py 789-797). -/
def parseCpuField (s : String) (r : ProbeResult) (errs : List String) :
    ProbeResult × List String :=
  if strContains s "ERROR_CPU_USAGE" || s == "" then
    (r, errs ++ ["CPU usage data retrieval failed."])
  else
    match parsePyFloat s with
    | some v => ({ r with cpu_percent := v }, errs)
    | none => (r, errs ++ ["Invalid CPU usage value: '" ++ s ++ "'."])

/-- RAM field parsing (app.py 799-815).  As in the source, sub-values
parsed before the first failure stay assigned. -/
def parseRamField (s : String) (r : ProbeResult) (errs : List String) :
    ProbeResult × List String :=
  if strContains s "ERROR_RAM" || s == "" then
    (r, errs ++ ["RAM data retrieval failed."])
  else
    match pySplit s "###" with
    | [p0, p1, p2] =>
      match parsePyFloat p0 with
      | none => (r, errs ++ ["Invalid RAM values: '" ++ s ++ "'."])
      | some v0 =>
        let r0 := { r with ram_percent := v0 }
        match parsePyFloat p1 with
        | none => (r0, errs ++ ["Invalid RAM values: '" ++ s ++ "'."])
        | some v1 =>
          let r1 := { r0 with ram_used_gb := v1 }
          match parsePyFloat p2 with
          | none => (r1, errs ++ ["Invalid RAM values: '" ++ s ++ "'."])
          | some v2 => ({ r1 with ram_total_gb := v2 }, errs)
    | _ => (r, errs ++ ["Unexpected RAM format: '" ++ s ++ "'."])

/-- DISK field parsing (app.py 817-837): kilobyte sub-values are
converted to gigabytes and rounded to two decimals. -/
def parseDiskField (s : String) (r : ProbeResult) (errs : List String) :
    ProbeResult × List String :=
  if strContains s "ERROR_DISK" || s == "" then
    (r, errs ++ ["Disk data retrieval failed."])
  else
    match pySplit s "###" with
    | [p0, p1, p2] =>
      match parsePyFloat p0 with
      | none => (r, errs ++ ["Invalid Disk values: '" ++ s ++ "'."])
      | some v0 =>
        let r0 := { r with disk_percent := v0 }
        match parsePyFloat p1 with
        | none => (r0, errs ++ ["Invalid Disk values: '" ++ s ++ "'."])
        | some v1 =>
          let r1 := { r0 with disk_used_gb := pyRound2 (ratDiv v1 1048576) }
          match parsePyFloat p2 with
          | none => (r1, errs ++ ["Invalid Disk values: '" ++ s ++ "'."])
          | some v2 => ({ r1 with disk_total_gb := pyRound2 (ratDiv v2 1048576) }, errs)
    | _ => (r, errs ++ ["Unexpected Disk format: '" ++ s ++ "'."])

/-- CPU-cores field parsing (app.py 839-849). -/
def parseCoresField (s : String) (r : ProbeResult) (errs : List String) :
    ProbeResult × List String :=
  if strContains s "ERROR_CPU_CORES" || s == "" then
    ({ r with cpu_cores := 0 }, errs ++ ["CPU cores data retrieval failed."])
  else
    match parsePyInt s with
    | some v => ({ r with cpu_cores := v }, errs)
    | none => ({ r with cpu_cores := 0 }, errs ++ ["Invalid CPU cores value: '" ++ s ++ "'."])

/-- CPU-model field parsing (app.py 851-861). -/
def parseModelField (s : String) (r : ProbeResult) (errs : List String) :
    ProbeResult × List String :=
  if strContains s "ERROR_CPU_MODEL" || pyStrip s == "" || pyUpper (pyStrip s) == "N/A" then
    ({ r with cpu_model := "N/A" }, errs ++ ["CPU model data retrieval failed or N/A."])
  else
    ({ r with cpu_model := pyStrip s }, errs)

/-- The chained parsing of the five delimiter-separated parts
(app.py 787-861), returning the updated result and the accumulated
per-field error messages. -/
def parseFiveParts (r : ProbeResult) (c ra d co mo : String) :
    ProbeResult × List String :=
  let s1 := parseCpuField c r []
  let s2 := parseRamField ra s1.1 s1.2
  let s3 := parseDiskField d s2.1 s2.2
  let s4 := parseCoresField co s3.1 s3.2
  parseModelField mo s4.1 s4.2

/-- The per-field error messages produced for a given (already stripped)
raw output, empty unless the output splits into exactly five parts. -/
def fieldErrors (raw : String) (r : ProbeResult) : List String :=
  match pySplit raw STATS_DELIMITER with
  | [c, ra, d, co, mo] => (parseFiveParts r c ra d co mo).2
  | _ => []

/-- Outcome of running the composite command over the established SSH
session: captured stdout/stderr and the remote exit status. -/
structure ExecOutcome where
  stdoutRaw : String
  stderrRaw : String
  exitStatus : Int
deriving Repr, DecidableEq

/-- The parsing branch of the status-derivation logic (app.py 786-872),
applied to the split parts of the raw output. -/
def processParts (name raw : String) (r : ProbeResult) : List String → ProbeResult
  | [c, ra, d, co, mo] =>
    if (parseFiveParts r c ra d co mo).2.isEmpty then
      { (parseFiveParts r c ra d co mo).1 with status := "online" }
    else
      { (parseFiveParts r c ra d co mo).1 with status := "error", error_message := some (String.intercalate " | " (parseFiveParts r c ra d co mo).2) }
  | parts =>
    let n := parts.length
    let excerpt := pyTake 150 raw
    let msg := "Output format error. Expected 5 parts, got " ++ toString n ++ ". Output: '" ++ excerpt ++ "...'"
    { r with status := "error", error_message := some msg }

/-- Status-derivation and parsing logic applied to the command outcome
(app.py 772-905).  `raw` and `errOut` are the stripped stdout/stderr. -/
def processExecOutput (name : String) (exitStatus : Int) (raw errOut : String)
    (r : ProbeResult) : ProbeResult :=
  if exitStatus == 0 && raw != "" then
    processParts name raw r (pySplit raw STATS_DELIMITER)
  else if exitStatus != 0 then
    let ec := toString exitStatus
    let head := "Remote script execution failed on " ++ name ++ " (exit code: " ++ ec ++ ")."
    let tail :=
      if errOut != "" then " Stderr: " ++ errOut
      else if raw != "" then
        let ex := pyTake 100 raw
        " Stdout (partial): " ++ ex ++ "..."
      else " No stdout or stderr received."
    { r with status := "error", error_message := some (head ++ tail) }
  else
    let msg := "No output from remote command on " ++ name ++ ", though script reported success (exit code 0)."
    { r with status := "error", error_message := some msg }

/-- The exception classes the outer handlers distinguish
(app.py 907-928). -/
inductive ProbeExc where
  | auth (msg : String)
  | ssh (msg : String)
  | general (msg : String)
deriving Repr, DecidableEq

/-- Target-phase outcome: either an exception escaping connect/exec, or
the command outcome. -/
inductive RunOutcome where
  | exc (e : ProbeExc)
  | ok (o : ExecOutcome)
deriving Repr, DecidableEq

/-- Oracle describing what the SSH layer does on this probe: the jump
connect, the forwarded-channel open (`some msg` models the caught
`paramiko.SSHException`), and the target connect/exec phase. -/
structure Network where
  jumpConnect : Option ProbeExc
  openChannelErr : Option String
  targetRun : RunOutcome
deriving Repr, DecidableEq

/-- Connection attempts the probe makes, in order. -/
inductive NetEvent where
  | jumpConnectAttempt
  | channelOpenAttempt
  | targetConnectAttempt
deriving Repr, DecidableEq

/-- The outer exception handlers (app.py 907-928). -/
def applyProbeExc (name : String) (e : ProbeExc) (r : ProbeResult) : ProbeResult :=
  match e with
  | .auth m =>
      { r with status := "error", error_message := some ("Authentication failed for " ++ name ++ ": " ++ m) }
  | .ssh m =>
      { r with status := "error", error_message := some ("SSH connection error for " ++ name ++ ": " ++ m) }
  | .general m =>
      { r with status := "error", error_message := some ("A general error occurred while processing " ++ name ++ ": " ++ m) }

/-- Final sanitization block (app.py 934-959).  In this typed embedding
the numeric coercions of the source (float/int with fallback 0) are
identities; the observable part is the `cpu_model` forcing and the
unknown-error fill.  The two updates of the source are independent, so
they are written as one four-way case split. -/
def finalSanitize (r : ProbeResult) : ProbeResult :=
  if pyStrip r.cpu_model == "" then
    if r.status == "error" && (r.error_message.getD "") == "" then
      { r with cpu_model := "N/A", error_message := some "Unknown error during data retrieval." }
    else
      { r with cpu_model := "N/A" }
  else
    if r.status == "error" && (r.error_message.getD "") == "" then
      { r with error_message := some "Unknown error during data retrieval." }
    else
      r

/-- Lookup in the `all_server_configs_map` dict. -/
def lookupConf (m : List (String × ServerConf)) (k : String) : Option ServerConf :=
  (m.find? (fun p => p.1 == k)).map (fun p => p.2)

/-- Target connect + command run + parsing, shared by the direct and the
tunneled paths (app.py 745-905 with the outer handlers). -/
def runTargetPhase (name : String) (net : Network) (r : ProbeResult) : ProbeResult :=
  match net.targetRun with
  | .exc e => applyProbeExc name e r
  | .ok out => processExecOutput name out.exitStatus (pyStrip out.stdoutRaw) (pyStrip out.stderrRaw) r

/-- `get_remote_server_stats` (app.py 632-972) over the network oracle.
Returns the result together with the list of connection attempts made.
The four early `return base_result` paths (missing target auth 663-672,
unresolved jump index 676-687, missing jump auth 695-705, channel-open
failure 719-733) return before the final-sanitization block, exactly as
the source does. -/
def get_remote_server_stats (t : ServerConf) (m : List (String × ServerConf))
    (net : Network) : ProbeResult × List NetEvent :=
  let base := mkBaseResult t
  let name := base.name
  match get_ssh_connection_args t with
  | none =>
    let msg := "Target server authentication details (password/key) missing in configuration."
    ({ base with error_message := some msg }, [])
  | some _ =>
    match t.jump_server_index with
    | some idx =>
      match lookupConf m idx with
      | none =>
        let msg := "Jump server configuration for index '" ++ idx ++ "' not found in the provided server map."
        ({ base with error_message := some msg }, [])
      | some jconf =>
        let jname := jconf.name.getD jconf.host
        match get_ssh_connection_args jconf with
        | none =>
          let msg := "Jump server '" ++ jname ++ "' authentication details (password/key) missing."
          ({ base with error_message := some msg }, [])
        | some _ =>
          match net.jumpConnect with
          | some e => (finalSanitize (applyProbeExc name e base), [.jumpConnectAttempt])
          | none =>
            match net.openChannelErr with
            | some cmsg =>
              let msg := "Failed to open SSH channel via jump server " ++ jname ++ ": " ++ cmsg
              ({ base with error_message := some msg },
               [.jumpConnectAttempt, .channelOpenAttempt])
            | none =>
              (finalSanitize (runTargetPhase name net base),
               [.jumpConnectAttempt, .channelOpenAttempt, .targetConnectAttempt])
    | none =>
      (finalSanitize (runTargetPhase name net base), [.targetConnectAttempt])

/-- The command outcome the probe parses, when the control flow reaches
command execution; `none` on every early-return and exception path. -/
def execOutcomeOf (t : ServerConf) (m : List (String × ServerConf))
    (net : Network) : Option ExecOutcome :=
  match get_ssh_connection_args t with
  | none => none
  | some _ =>
    match t.jump_server_index with
    | some idx =>
      match lookupConf m idx with
      | none => none
      | some jconf =>
        match get_ssh_connection_args jconf with
        | none => none
        | some _ =>
          match net.jumpConnect with
          | some _ => none
          | none =>
            match net.openChannelErr with
            | some _ => none
            | none =>
              match net.targetRun with
              | .exc _ => none
              | .ok out => some out
    | none =>
      match net.targetRun with
      | .exc _ => none
      | .ok out => some out

/-! ### Basic string facts used by the probe proofs -/

lemma str_eq_empty_iff_data (s : String) : s = "" ↔ s.data = [] := by
  constructor
  · intro h; rw [h]
  · intro h
    cases s with
    | mk d =>
      simp only [String.data] at h
      rw [h]

lemma append_ne_empty_right (a : String) {b : String} (hb : b ≠ "") : a ++ b ≠ "" := by
  intro h
  have hd := congrArg String.data h
  rw [String.data_append] at hd
  have hnil : b.data = [] := (List.append_eq_nil.mp hd).2
  exact hb ((str_eq_empty_iff_data b).mpr hnil)

lemma append_ne_empty_left {a : String} (b : String) (ha : a ≠ "") : a ++ b ≠ "" := by
  intro h
  have hd := congrArg String.data h
  rw [String.data_append] at hd
  have hnil : a.data = [] := (List.append_eq_nil.mp hd).1
  exact ha ((str_eq_empty_iff_data a).mpr hnil)

lemma intercalate_go_ne_empty (sep : String) (l : List String) (acc : String)
    (hacc : acc ≠ "") : String.intercalate.go acc sep l ≠ "" := by
  induction l generalizing acc with
  | nil => simpa [String.intercalate.go] using hacc
  | cons x xs ih =>
    simp only [String.intercalate.go]
    exact ih (acc ++ sep ++ x) (append_ne_empty_left x (append_ne_empty_left sep hacc))

lemma intercalate_ne_empty (l : List String) (hne : l ≠ [])
    (h : ∀ m ∈ l, m ≠ "") : String.intercalate " | " l ≠ "" := by
  cases l with
  | nil => exact absurd rfl hne
  | cons a as =>
    simp only [String.intercalate]
    exact intercalate_go_ne_empty " | " as a (h a (by simp))

/-! ### Field-error messages are never the empty string -/

lemma parseCpuField_msgs (s : String) (r : ProbeResult) (errs : List String)
    (h : ∀ m ∈ errs, m ≠ "") : ∀ m ∈ (parseCpuField s r errs).2, m ≠ "" := by
  unfold parseCpuField
  split
  · intro m hm
    rcases List.mem_append.mp hm with hm | hm
    · exact h m hm
    · simp at hm; subst hm; decide
  · split
    · exact h
    · intro m hm
      rcases List.mem_append.mp hm with hm | hm
      · exact h m hm
      · simp at hm; subst hm
        exact append_ne_empty_right _ (by decide)

lemma parseRamField_msgs (s : String) (r : ProbeResult) (errs : List String)
    (h : ∀ m ∈ errs, m ≠ "") : ∀ m ∈ (parseRamField s r errs).2, m ≠ "" := by
  unfold parseRamField
  split
  · intro m hm
    rcases List.mem_append.mp hm with hm | hm
    · exact h m hm
    · simp at hm; subst hm; decide
  · split <;>
      first
      | (intro m hm
         rcases List.mem_append.mp hm with hm | hm
         · exact h m hm
         · simp at hm; subst hm
           exact append_ne_empty_right _ (by decide))
      | (split
         · (intro m hm
            rcases List.mem_append.mp hm with hm | hm
            · exact h m hm
            · simp at hm; subst hm
              exact append_ne_empty_right _ (by decide))
         · (split
            · (intro m hm
               rcases List.mem_append.mp hm with hm | hm
               · exact h m hm
               · simp at hm; subst hm
                 exact append_ne_empty_right _ (by decide))
            · (split
               · (intro m hm
                  rcases List.mem_append.mp hm with hm | hm
                  · exact h m hm
                  · simp at hm; subst hm
                    exact append_ne_empty_right _ (by decide))
               · exact h)))

lemma parseDiskField_msgs (s : String) (r : ProbeResult) (errs : List String)
    (h : ∀ m ∈ errs, m ≠ "") : ∀ m ∈ (parseDiskField s r errs).2, m ≠ "" := by
  unfold parseDiskField
  split
  · intro m hm
    rcases List.mem_append.mp hm with hm | hm
    · exact h m hm
    · simp at hm; subst hm; decide
  · split <;>
      first
      | (intro m hm
         rcases List.mem_append.mp hm with hm | hm
         · exact h m hm
         · simp at hm; subst hm
           exact append_ne_empty_right _ (by decide))
      | (split
         · (intro m hm
            rcases List.mem_append.mp hm with hm | hm
            · exact h m hm
            · simp at hm; subst hm
              exact append_ne_empty_right _ (by decide))
         · (split
            · (intro m hm
               rcases List.mem_append.mp hm with hm | hm
               · exact h m hm
               · simp at hm; subst hm
                 exact append_ne_empty_right _ (by decide))
            · (split
               · (intro m hm
                  rcases List.mem_append.mp hm with hm | hm
                  · exact h m hm
                  · simp at hm; subst hm
                    exact append_ne_empty_right _ (by decide))
               · exact h)))

lemma parseCoresField_msgs (s : String) (r : ProbeResult) (errs : List String)
    (h : ∀ m ∈ errs, m ≠ "") : ∀ m ∈ (parseCoresField s r errs).2, m ≠ "" := by
  unfold parseCoresField
  split
  · intro m hm
    rcases List.mem_append.mp hm with hm | hm
    · exact h m hm
    · simp at hm; subst hm; decide
  · split
    · exact h
    · intro m hm
      rcases List.mem_append.mp hm with hm | hm
      · exact h m hm
      · simp at hm; subst hm
        exact append_ne_empty_right _ (by decide)

lemma parseModelField_msgs (s : String) (r : ProbeResult) (errs : List String)
    (h : ∀ m ∈ errs, m ≠ "") : ∀ m ∈ (parseModelField s r errs).2, m ≠ "" := by
  unfold parseModelField
  split
  · intro m hm
    rcases List.mem_append.mp hm with hm | hm
    · exact h m hm
    · simp at hm; subst hm; decide
  · exact h

lemma parseFiveParts_msgs (r : ProbeResult) (c ra d co mo : String) :
    ∀ m ∈ (parseFiveParts r c ra d co mo).2, m ≠ "" := by
  unfold parseFiveParts
  exact parseModelField_msgs _ _ _
    (parseCoresField_msgs _ _ _
      (parseDiskField_msgs _ _ _
        (parseRamField_msgs _ _ _
          (parseCpuField_msgs _ _ _ (by intro m hm; cases hm)))))

/-! ### Sanitization and exception-handler facts -/

lemma finalSanitize_status (r : ProbeResult) : (finalSanitize r).status = r.status := by
  unfold finalSanitize
  split <;> split <;> rfl

lemma applyProbeExc_status (name : String) (e : ProbeExc) (r : ProbeResult) :
    (applyProbeExc name e r).status = "error" := by
  cases e <;> rfl

lemma applyProbeExc_msg (name : String) (e : ProbeExc) (r : ProbeResult) :
    ∃ m, (applyProbeExc name e r).error_message = some m := by
  cases e <;> exact ⟨_, rfl⟩

lemma finalSanitize_msg_isSome (r : ProbeResult) (h : r.error_message.isSome) :
    (finalSanitize r).error_message.isSome := by
  unfold finalSanitize
  split <;> split <;> simp_all

lemma finalSanitize_msg_of_ne (r : ProbeResult) (msg : String)
    (h : r.error_message = some msg) (hne : msg ≠ "") :
    (finalSanitize r).error_message = some msg := by
  unfold finalSanitize
  split <;> split <;> simp_all

lemma finalSanitize_eq_tt_tt (r : ProbeResult)
    (hb1 : (pyStrip r.cpu_model == "") = true)
    (hb2 : (r.status == "error" && (r.error_message.getD "") == "") = true) :
    finalSanitize r =
      { r with cpu_model := "N/A", error_message := some "Unknown error during data retrieval." } := by
  unfold finalSanitize
  rw [hb1, hb2]
  simp

lemma finalSanitize_eq_tt_ff (r : ProbeResult)
    (hb1 : (pyStrip r.cpu_model == "") = true)
    (hb2 : (r.status == "error" && (r.error_message.getD "") == "") = false) :
    finalSanitize r = { r with cpu_model := "N/A" } := by
  unfold finalSanitize
  rw [hb1, hb2]
  simp

lemma finalSanitize_eq_ff_tt (r : ProbeResult)
    (hb1 : (pyStrip r.cpu_model == "") = false)
    (hb2 : (r.status == "error" && (r.error_message.getD "") == "") = true) :
    finalSanitize r = { r with error_message := some "Unknown error during data retrieval." } := by
  unfold finalSanitize
  rw [hb1, hb2]
  simp

lemma finalSanitize_eq_ff_ff (r : ProbeResult)
    (hb1 : (pyStrip r.cpu_model == "") = false)
    (hb2 : (r.status == "error" && (r.error_message.getD "") == "") = false) :
    finalSanitize r = r := by
  unfold finalSanitize
  rw [hb1, hb2]
  simp

lemma finalSanitize_idem (r : ProbeResult) :
    finalSanitize (finalSanitize r) = finalSanitize r := by
  cases hb1 : (pyStrip r.cpu_model == "") with
  | true =>
    cases hb2 : (r.status == "error" && (r.error_message.getD "") == "") with
    | true =>
      rw [finalSanitize_eq_tt_tt r hb1 hb2]
      exact finalSanitize_eq_ff_ff _ (by rfl) (by simp)
    | false =>
      rw [finalSanitize_eq_tt_ff r hb1 hb2]
      exact finalSanitize_eq_ff_ff _ (by rfl) hb2
  | false =>
    cases hb2 : (r.status == "error" && (r.error_message.getD "") == "") with
    | true =>
      rw [finalSanitize_eq_ff_tt r hb1 hb2]
      exact finalSanitize_eq_ff_ff _ hb1 (by simp)
    | false =>
      rw [finalSanitize_eq_ff_ff r hb1 hb2]
      exact finalSanitize_eq_ff_ff r hb1 hb2

lemma finalSanitize_model_ne (r : ProbeResult) : (finalSanitize r).cpu_model ≠ "" := by
  cases hb1 : (pyStrip r.cpu_model == "") with
  | true =>
    cases hb2 : (r.status == "error" && (r.error_message.getD "") == "") with
    | true =>
      rw [finalSanitize_eq_tt_tt r hb1 hb2]
      show ("N/A" : String) ≠ ""
      decide
    | false =>
      rw [finalSanitize_eq_tt_ff r hb1 hb2]
      show ("N/A" : String) ≠ ""
      decide
  | false =>
    have hm : r.cpu_model ≠ "" := by
      intro he
      rw [he] at hb1
      exact absurd hb1 (by decide)
    cases hb2 : (r.status == "error" && (r.error_message.getD "") == "") with
    | true => rw [finalSanitize_eq_ff_tt r hb1 hb2]; simpa using hm
    | false => rw [finalSanitize_eq_ff_ff r hb1 hb2]; exact hm

/-- A list of length five is a five-element literal. -/
lemma list_len5 {α : Type} (l : List α) (h : l.length = 5) :
    ∃ a b c d e, l = [a, b, c, d, e] := by
  rcases l with _ | ⟨a, _ | ⟨b, _ | ⟨c, _ | ⟨d, _ | ⟨e, rest⟩⟩⟩⟩⟩ <;> simp_all

/-! ### Characterization of the status-derivation logic -/

lemma fieldErrors_eq (raw : String) (r : ProbeResult) {c ra d co mo : String}
    (heq : pySplit raw STATS_DELIMITER = [c, ra, d, co, mo]) :
    fieldErrors raw r = (parseFiveParts r c ra d co mo).2 := by
  unfold fieldErrors
  rw [heq]

lemma processParts_ne5 (name raw : String) (r : ProbeResult) (parts : List String)
    (h : parts.length ≠ 5) :
    (processParts name raw r parts).status = "error" ∧
    ∃ m, (processParts name raw r parts).error_message = some m ∧ m ≠ "" := by
  rcases parts with _ | ⟨a, _ | ⟨b, _ | ⟨c, _ | ⟨d, _ | ⟨e, rest⟩⟩⟩⟩⟩
  case nil => exact ⟨rfl, _, rfl, append_ne_empty_right _ (by decide)⟩
  case cons.nil => exact ⟨rfl, _, rfl, append_ne_empty_right _ (by decide)⟩
  case cons.cons.nil => exact ⟨rfl, _, rfl, append_ne_empty_right _ (by decide)⟩
  case cons.cons.cons.nil => exact ⟨rfl, _, rfl, append_ne_empty_right _ (by decide)⟩
  case cons.cons.cons.cons.nil => exact ⟨rfl, _, rfl, append_ne_empty_right _ (by decide)⟩
  case cons.cons.cons.cons.cons =>
    cases rest with
    | nil => exact absurd rfl h
    | cons f rest2 => exact ⟨rfl, _, rfl, append_ne_empty_right _ (by decide)⟩

lemma processExecOutput_spec (name : String) (es : Int) (raw errOut : String) (r : ProbeResult) :
    ((es = 0 ∧ raw ≠ "" ∧ (pySplit raw STATS_DELIMITER).length = 5 ∧ fieldErrors raw r = []) →
      (processExecOutput name es raw errOut r).status = "online") ∧
    (¬(es = 0 ∧ raw ≠ "" ∧ (pySplit raw STATS_DELIMITER).length = 5 ∧ fieldErrors raw r = []) →
      (processExecOutput name es raw errOut r).status = "error" ∧
      ∃ m, (processExecOutput name es raw errOut r).error_message = some m ∧ m ≠ "") ∧
    ((es = 0 ∧ raw ≠ "" ∧ (pySplit raw STATS_DELIMITER).length = 5 ∧ fieldErrors raw r ≠ []) →
      (processExecOutput name es raw errOut r).error_message =
        some (String.intercalate " | " (fieldErrors raw r))) := by
  refine ⟨?_, ?_, ?_⟩
  · rintro ⟨hes, hraw, hlen, herr⟩
    unfold processExecOutput
    rw [if_pos (by simp [hes, hraw])]
    obtain ⟨c, ra, d, co, mo, heq⟩ := list_len5 _ hlen
    have hpf : (parseFiveParts r c ra d co mo).2 = [] := (fieldErrors_eq raw r heq).symm.trans herr
    rw [heq]
    simp only [processParts]
    rw [if_pos (by simp [hpf])]
  · intro hneg
    by_cases hcond : (es == 0 && raw != "") = true
    · obtain ⟨hes, hraw⟩ : es = 0 ∧ ¬ raw = "" := by simpa using hcond
      unfold processExecOutput
      rw [if_pos hcond]
      by_cases h5 : (pySplit raw STATS_DELIMITER).length = 5
      · obtain ⟨c, ra, d, co, mo, heq⟩ := list_len5 _ h5
        have herr : fieldErrors raw r ≠ [] := fun h0 => hneg ⟨hes, hraw, h5, h0⟩
        have hpf : (parseFiveParts r c ra d co mo).2 ≠ [] := by
          rw [← fieldErrors_eq raw r heq]
          exact herr
        rw [heq]
        simp only [processParts]
        rw [if_neg (by simpa using hpf)]
        refine ⟨rfl, _, rfl, ?_⟩
        exact intercalate_ne_empty _ hpf (parseFiveParts_msgs r c ra d co mo)
      · exact processParts_ne5 name raw r _ h5
    · unfold processExecOutput
      rw [if_neg hcond]
      split
      · exact ⟨rfl, _, rfl, append_ne_empty_left _ (append_ne_empty_right _ (by decide))⟩
      · exact ⟨rfl, _, rfl, append_ne_empty_right _ (by decide)⟩
  · rintro ⟨hes, hraw, hlen, herr⟩
    unfold processExecOutput
    rw [if_pos (by simp [hes, hraw])]
    obtain ⟨c, ra, d, co, mo, heq⟩ := list_len5 _ hlen
    have hpf : (parseFiveParts r c ra d co mo).2 ≠ [] := by
      rw [← fieldErrors_eq raw r heq]
      exact herr
    rw [heq]
    simp only [processParts]
    rw [if_neg (by simpa using hpf)]
    rw [fieldErrors_eq raw r heq]

/-- Case analysis over the control flow of `get_remote_server_stats`:
either one of the four early returns fired (result is the base dict with
only an error message set, unsanitized), or an exception handler fired,
or command execution was reached. -/
lemma probe_cases (t : ServerConf) (m : List (String × ServerConf)) (net : Network) :
    (∃ msg, (get_remote_server_stats t m net).1 = { mkBaseResult t with error_message := some msg } ∧
        execOutcomeOf t m net = none) ∨
    (∃ e, (get_remote_server_stats t m net).1 =
          finalSanitize (applyProbeExc (mkBaseResult t).name e (mkBaseResult t)) ∧
        execOutcomeOf t m net = none) ∨
    (∃ out, execOutcomeOf t m net = some out ∧
        (get_remote_server_stats t m net).1 =
          finalSanitize (processExecOutput (mkBaseResult t).name out.exitStatus
            (pyStrip out.stdoutRaw) (pyStrip out.stderrRaw) (mkBaseResult t))) := by
  cases h1 : get_ssh_connection_args t with
  | none =>
    exact Or.inl ⟨"Target server authentication details (password/key) missing in configuration.",
      by simp [get_remote_server_stats, h1], by simp [execOutcomeOf, h1]⟩
  | some args =>
    cases h2 : t.jump_server_index with
    | none =>
      cases h3 : net.targetRun with
      | exc e =>
        refine Or.inr (Or.inl ⟨e, ?_, ?_⟩)
        · simp [get_remote_server_stats, runTargetPhase, h1, h2, h3]
        · simp [execOutcomeOf, h1, h2, h3]
      | ok out =>
        refine Or.inr (Or.inr ⟨out, ?_, ?_⟩)
        · simp [execOutcomeOf, h1, h2, h3]
        · simp [get_remote_server_stats, runTargetPhase, h1, h2, h3]
    | some idx =>
      cases h4 : lookupConf m idx with
      | none =>
        exact Or.inl ⟨"Jump server configuration for index '" ++ idx ++ "' not found in the provided server map.",
          by simp [get_remote_server_stats, h1, h2, h4],
          by simp [execOutcomeOf, h1, h2, h4]⟩
      | some jconf =>
        cases h5 : get_ssh_connection_args jconf with
        | none =>
          exact Or.inl ⟨"Jump server '" ++ jconf.name.getD jconf.host ++ "' authentication details (password/key) missing.",
            by simp [get_remote_server_stats, h1, h2, h4, h5],
            by simp [execOutcomeOf, h1, h2, h4, h5]⟩
        | some jargs =>
          cases h6 : net.jumpConnect with
          | some e =>
            refine Or.inr (Or.inl ⟨e, ?_, ?_⟩)
            · simp [get_remote_server_stats, h1, h2, h4, h5, h6]
            · simp [execOutcomeOf, h1, h2, h4, h5, h6]
          | none =>
            cases h7 : net.openChannelErr with
            | some cmsg =>
              exact Or.inl ⟨"Failed to open SSH channel via jump server " ++ jconf.name.getD jconf.host ++ ": " ++ cmsg,
                by simp [get_remote_server_stats, h1, h2, h4, h5, h6, h7],
                by simp [execOutcomeOf, h1, h2, h4, h5, h6, h7]⟩
            | none =>
              cases h3 : net.targetRun with
              | exc e =>
                refine Or.inr (Or.inl ⟨e, ?_, ?_⟩)
                · simp [get_remote_server_stats, runTargetPhase, h1, h2, h4, h5, h6, h7, h3]
                · simp [execOutcomeOf, h1, h2, h4, h5, h6, h7, h3]
              | ok out =>
                refine Or.inr (Or.inr ⟨out, ?_, ?_⟩)
                · simp [execOutcomeOf, h1, h2, h4, h5, h6, h7, h3]
                · simp [get_remote_server_stats, runTargetPhase, h1, h2, h4, h5, h6, h7, h3]

/-- C1: for every probe, the result's status is "online" iff command
execution was reached with remote exit code 0, non-empty (stripped)
stdout, exactly five delimiter-separated parts, and no field errors; in
every other case the status is not "online" and an error_message is
present, which in the parse-error case is exactly the field-error
messages joined by the " | " separator. -/
theorem probe_status_online_iff_c1 (t : ServerConf) (m : List (String × ServerConf)) (net : Network) :
    ((get_remote_server_stats t m net).1.status = "online" ↔
      (∃ out, execOutcomeOf t m net = some out ∧ out.exitStatus = 0 ∧
        pyStrip out.stdoutRaw ≠ "" ∧
        (pySplit (pyStrip out.stdoutRaw) STATS_DELIMITER).length = 5 ∧
        fieldErrors (pyStrip out.stdoutRaw) (mkBaseResult t) = [])) ∧
    ((get_remote_server_stats t m net).1.status ≠ "online" →
      ∃ msg, (get_remote_server_stats t m net).1.error_message = some msg) ∧
    (∀ out, execOutcomeOf t m net = some out → out.exitStatus = 0 →
      pyStrip out.stdoutRaw ≠ "" →
      (pySplit (pyStrip out.stdoutRaw) STATS_DELIMITER).length = 5 →
      fieldErrors (pyStrip out.stdoutRaw) (mkBaseResult t) ≠ [] →
      (get_remote_server_stats t m net).1.error_message =
        some (String.intercalate " | " (fieldErrors (pyStrip out.stdoutRaw) (mkBaseResult t)))) := by
  rcases probe_cases t m net with ⟨msg, hP, hE⟩ | ⟨e, hP, hE⟩ | ⟨out, hE, hP⟩
  · refine ⟨?_, ?_, ?_⟩
    · constructor
      · intro h
        rw [hP] at h
        simp [mkBaseResult] at h
      · rintro ⟨out, hout, -, -, -, -⟩
        rw [hE] at hout
        exact Option.noConfusion hout
    · intro _
      rw [hP]
      exact ⟨msg, rfl⟩
    · intro out hout
      rw [hE] at hout
      exact absurd hout (by simp)
  · have hst : (get_remote_server_stats t m net).1.status = "error" := by
      rw [hP, finalSanitize_status, applyProbeExc_status]
    refine ⟨?_, ?_, ?_⟩
    · constructor
      · intro h
        rw [hst] at h
        exact absurd h (by decide)
      · rintro ⟨out, hout, -, -, -, -⟩
        rw [hE] at hout
        exact Option.noConfusion hout
    · intro _
      obtain ⟨m0, hm0⟩ := applyProbeExc_msg (mkBaseResult t).name e (mkBaseResult t)
      rw [hP]
      exact Option.isSome_iff_exists.mp (finalSanitize_msg_isSome _ (by rw [hm0]; rfl))
    · intro out hout
      rw [hE] at hout
      exact absurd hout (by simp)
  · have hspec := processExecOutput_spec (mkBaseResult t).name out.exitStatus
      (pyStrip out.stdoutRaw) (pyStrip out.stderrRaw) (mkBaseResult t)
    by_cases hc : out.exitStatus = 0 ∧ pyStrip out.stdoutRaw ≠ "" ∧
      (pySplit (pyStrip out.stdoutRaw) STATS_DELIMITER).length = 5 ∧
      fieldErrors (pyStrip out.stdoutRaw) (mkBaseResult t) = []
    · have hst : (get_remote_server_stats t m net).1.status = "online" := by
        rw [hP, finalSanitize_status]
        exact hspec.1 hc
      refine ⟨?_, ?_, ?_⟩
      · constructor
        · intro _
          exact ⟨out, hE, hc.1, hc.2.1, hc.2.2.1, hc.2.2.2⟩
        · intro _
          exact hst
      · intro hno
        exact absurd hst hno
      · intro out2 hout2 h1 h2 h3 h4
        rw [hE] at hout2
        injection hout2 with h
        subst h
        exact absurd hc.2.2.2 h4
    · obtain ⟨hstE, m1, hm1, hm1ne⟩ := hspec.2.1 hc
      have hst : (get_remote_server_stats t m net).1.status = "error" := by
        rw [hP, finalSanitize_status]
        exact hstE
      refine ⟨?_, ?_, ?_⟩
      · constructor
        · intro h
          rw [hst] at h
          exact absurd h (by decide)
        · rintro ⟨out2, hout2, hco1, hco2, hco3, hco4⟩
          rw [hE] at hout2
          injection hout2 with h
          subst h
          exact absurd ⟨hco1, hco2, hco3, hco4⟩ hc
      · intro _
        rw [hP]
        exact ⟨m1, finalSanitize_msg_of_ne _ _ hm1 hm1ne⟩
      · intro out2 hout2 h1 h2 h3 h4
        rw [hE] at hout2
        injection hout2 with h
        subst h
        have hmsg := hspec.2.2 ⟨h1, h2, h3, h4⟩
        rw [hP]
        apply finalSanitize_msg_of_ne _ _ hmsg
        obtain ⟨c, ra, d, co, mo, heq⟩ := list_len5 _ h3
        rw [fieldErrors_eq _ _ heq] at h4 ⊢
        exact intercalate_ne_empty _ h4 (parseFiveParts_msgs _ c ra d co mo)

set_option maxRecDepth 40000 in
/-- C1 witness: a well-formed five-part output with exit code 0 yields
an "online" result. -/
theorem probe_status_online_iff_c1_witness :
    (get_remote_server_stats
      ⟨some "a", "h", 22, "u", some "pw", none, none, none, none, false⟩ []
      ⟨none, none, .ok ⟨"12.5###STATS_DELIMITER###40.0###2.00###4.00###STATS_DELIMITER###55###10485760###20971520###STATS_DELIMITER###8###STATS_DELIMITER### Intel Xeon ", "", 0⟩⟩).1.status = "online" :=
  (probe_status_online_iff_c1
      ⟨some "a", "h", 22, "u", some "pw", none, none, none, none, false⟩ []
      ⟨none, none, .ok ⟨"12.5###STATS_DELIMITER###40.0###2.00###4.00###STATS_DELIMITER###55###10485760###20971520###STATS_DELIMITER###8###STATS_DELIMITER### Intel Xeon ", "", 0⟩⟩).1.mpr
    ⟨⟨"12.5###STATS_DELIMITER###40.0###2.00###4.00###STATS_DELIMITER###55###10485760###20971520###STATS_DELIMITER###8###STATS_DELIMITER### Intel Xeon ", "", 0⟩,
      by decide, by decide, by decide, by decide, by decide⟩

/-- C2 counterexample: a target with neither password nor key gets
status "offline", not "error", from the early return (app.py 663-672). -/
theorem probe_auth_missing_c2_counterexample :
    ¬ ((get_remote_server_stats
        ⟨some "a", "h", 22, "u", none, none, none, none, none, false⟩ []
        ⟨none, none, .ok ⟨"", "", 0⟩⟩).1.status = "error") := by
  decide

/-- C2 (amended): for every target with neither password nor key_path,
the probe returns immediately with status "offline" (hence not
"online"), the auth-missing error message, and no connection attempt. -/
theorem probe_auth_missing_c2 (t : ServerConf) (m : List (String × ServerConf)) (net : Network)
    (hkey : t.key_path = none) (hpw : t.password = none) :
    (get_remote_server_stats t m net).1.status = "offline" ∧
    (get_remote_server_stats t m net).1.error_message =
      some "Target server authentication details (password/key) missing in configuration." ∧
    (get_remote_server_stats t m net).2 = [] := by
  have h1 : get_ssh_connection_args t = none := by
    unfold get_ssh_connection_args
    rw [hkey, hpw]
  refine ⟨?_, ?_, ?_⟩ <;> simp [get_remote_server_stats, h1, mkBaseResult]

/-- C2 witness at a concrete auth-less target. -/
theorem probe_auth_missing_c2_witness :
    (get_remote_server_stats
        ⟨some "b", "h2", 2022, "u2", none, none, none, none, none, false⟩ []
        ⟨none, none, .ok ⟨"x", "", 1⟩⟩).1.status = "offline" ∧
    (get_remote_server_stats
        ⟨some "b", "h2", 2022, "u2", none, none, none, none, none, false⟩ []
        ⟨none, none, .ok ⟨"x", "", 1⟩⟩).1.error_message =
      some "Target server authentication details (password/key) missing in configuration." ∧
    (get_remote_server_stats
        ⟨some "b", "h2", 2022, "u2", none, none, none, none, none, false⟩ []
        ⟨none, none, .ok ⟨"x", "", 1⟩⟩).2 = [] :=
  probe_auth_missing_c2 _ _ _ rfl rfl

/-- C3 counterexample: a target whose jump reference is absent from the
server map gets status "offline", not "error" (app.py 676-687). -/
theorem probe_jump_unresolved_c3_counterexample :
    ¬ ((get_remote_server_stats
        ⟨some "a", "h", 22, "u", some "pw", none, none, some "9", none, false⟩ []
        ⟨none, none, .ok ⟨"", "", 0⟩⟩).1.status = "error") := by
  decide

/-- C3 (amended): for every target with resolvable auth whose jump
reference does not resolve in the supplied map, the probe returns
immediately with status "offline" (hence not "online"), an error
message naming the unresolved jump index, and no connection attempt. -/
theorem probe_jump_unresolved_c3 (t : ServerConf) (m : List (String × ServerConf)) (net : Network)
    (idx : String) (hargs : (get_ssh_connection_args t).isSome)
    (hidx : t.jump_server_index = some idx) (hlk : lookupConf m idx = none) :
    (get_remote_server_stats t m net).1.status = "offline" ∧
    (get_remote_server_stats t m net).1.error_message =
      some ("Jump server configuration for index '" ++ idx ++ "' not found in the provided server map.") ∧
    (get_remote_server_stats t m net).2 = [] := by
  obtain ⟨args, hargs2⟩ := Option.isSome_iff_exists.mp hargs
  refine ⟨?_, ?_, ?_⟩ <;> simp [get_remote_server_stats, hargs2, hidx, hlk, mkBaseResult]

/-- C3 witness at a concrete target with an unresolved jump index. -/
theorem probe_jump_unresolved_c3_witness :
    (get_remote_server_stats
        ⟨some "c", "h3", 22, "u", some "pw", none, none, some "7", none, false⟩ []
        ⟨none, none, .ok ⟨"", "", 0⟩⟩).1.status = "offline" ∧
    (get_remote_server_stats
        ⟨some "c", "h3", 22, "u", some "pw", none, none, some "7", none, false⟩ []
        ⟨none, none, .ok ⟨"", "", 0⟩⟩).1.error_message =
      some ("Jump server configuration for index '" ++ "7" ++ "' not found in the provided server map.") ∧
    (get_remote_server_stats
        ⟨some "c", "h3", 22, "u", some "pw", none, none, some "7", none, false⟩ []
        ⟨none, none, .ok ⟨"", "", 0⟩⟩).2 = [] :=
  probe_jump_unresolved_c3 _ _ _ "7" (by decide) rfl rfl

set_option maxRecDepth 40000 in
/-- C8 counterexample: an "online" result whose numeric fields violate
every claimed bound (cpu 150, ram -5, disk 200, cores -3): the parser
performs no range validation. -/
theorem probe_online_fields_c8_counterexample :
    (get_remote_server_stats
        ⟨some "a", "h", 22, "u", some "pw", none, none, none, none, false⟩ []
        ⟨none, none, .ok ⟨"150###STATS_DELIMITER###-5###1###2###STATS_DELIMITER###200###1###1###STATS_DELIMITER###-3###STATS_DELIMITER###Intel", "", 0⟩⟩).1.status = "online" ∧
    ¬ ((get_remote_server_stats
        ⟨some "a", "h", 22, "u", some "pw", none, none, none, none, false⟩ []
        ⟨none, none, .ok ⟨"150###STATS_DELIMITER###-5###1###2###STATS_DELIMITER###200###1###1###STATS_DELIMITER###-3###STATS_DELIMITER###Intel", "", 0⟩⟩).1.cpu_percent ≤ 100) ∧
    (get_remote_server_stats
        ⟨some "a", "h", 22, "u", some "pw", none, none, none, none, false⟩ []
        ⟨none, none, .ok ⟨"150###STATS_DELIMITER###-5###1###2###STATS_DELIMITER###200###1###1###STATS_DELIMITER###-3###STATS_DELIMITER###Intel", "", 0⟩⟩).1.cpu_cores < 0 ∧
    (get_remote_server_stats
        ⟨some "a", "h", 22, "u", some "pw", none, none, none, none, false⟩ []
        ⟨none, none, .ok ⟨"150###STATS_DELIMITER###-5###1###2###STATS_DELIMITER###200###1###1###STATS_DELIMITER###-3###STATS_DELIMITER###Intel", "", 0⟩⟩).1.ram_percent < 0 ∧
    100 < (get_remote_server_stats
        ⟨some "a", "h", 22, "u", some "pw", none, none, none, none, false⟩ []
        ⟨none, none, .ok ⟨"150###STATS_DELIMITER###-5###1###2###STATS_DELIMITER###200###1###1###STATS_DELIMITER###-3###STATS_DELIMITER###Intel", "", 0⟩⟩).1.disk_percent := by
  decide

/-- C8 (amended): for every "online" probe result, cpu_model is a
non-empty string; the numeric fields carry the parsed values with no
range guarantee. -/
theorem probe_online_fields_c8 (t : ServerConf) (m : List (String × ServerConf)) (net : Network)
    (h : (get_remote_server_stats t m net).1.status = "online") :
    (get_remote_server_stats t m net).1.cpu_model ≠ "" := by
  rcases probe_cases t m net with ⟨msg, hP, hE⟩ | ⟨e, hP, hE⟩ | ⟨out, hE, hP⟩ <;> rw [hP]
  · show ("N/A" : String) ≠ ""
    decide
  · exact finalSanitize_model_ne _
  · exact finalSanitize_model_ne _

set_option maxRecDepth 40000 in
/-- C8 witness at a concrete online result. -/
theorem probe_online_fields_c8_witness :
    (get_remote_server_stats
        ⟨some "w", "hw", 22, "u", some "pw", none, none, none, none, false⟩ []
        ⟨none, none, .ok ⟨"3.5###STATS_DELIMITER###10.0###1.00###8.00###STATS_DELIMITER###20###1024###2048###STATS_DELIMITER###4###STATS_DELIMITER###AMD EPYC", "", 0⟩⟩).1.cpu_model ≠ "" :=
  probe_online_fields_c8
    ⟨some "w", "hw", 22, "u", some "pw", none, none, none, none, false⟩ []
    ⟨none, none, .ok ⟨"3.5###STATS_DELIMITER###10.0###1.00###8.00###STATS_DELIMITER###20###1024###2048###STATS_DELIMITER###4###STATS_DELIMITER###AMD EPYC", "", 0⟩⟩
    (by decide)

/-- C9: the returned probe result is invariant under the final
sanitization on every control path: on the main path the block runs
explicitly (and is idempotent), and each early-return path returns a
record the block leaves unchanged.  This is the observable content of
"sanitization is always applied". -/
theorem probe_always_sanitized_c9 (t : ServerConf) (m : List (String × ServerConf)) (net : Network) :
    finalSanitize ((get_remote_server_stats t m net).1) = (get_remote_server_stats t m net).1 := by
  rcases probe_cases t m net with ⟨msg, hP, hE⟩ | ⟨e, hP, hE⟩ | ⟨out, hE, hP⟩ <;> rw [hP]
  · apply finalSanitize_eq_ff_ff
    · show (pyStrip "N/A" == "") = false
      rfl
    · simp [mkBaseResult]
  · exact finalSanitize_idem _
  · exact finalSanitize_idem _

/-! ### Alert evaluator: per-(rule, server) evaluation step
(`evaluate_alerts`, app.py 1447-1644) -/

/-- Rational subtraction through `Rat.divInt` (value-equal to `Sub.sub`,
see `ratSub_eq`). -/
def ratSub (a b : ℚ) : ℚ :=
  Rat.divInt (a.num * (b.den : Int) - b.num * (a.den : Int)) ((a.den : Int) * (b.den : Int))

/-- The raw `last_triggered_at` cell as the evaluator reads it: SQL NULL
(or another falsy value), a string (SQLite), or a timestamp value
(PostgreSQL).  Timestamps are modelled as rational seconds. -/
inductive PyTimeVal where
  | absent
  | str (s : String)
  | dt (t : ℚ)
deriving Repr, DecidableEq

/-- An `alerts` row as `evaluate_alerts` reads it. -/
structure AlertRule where
  id : Nat
  alert_name : String
  server_name : String
  resource_type : String
  threshold_percentage : ℚ
  time_window_minutes : Nat
  emails : String
  is_enabled : Bool
  last_triggered_at : PyTimeVal
deriving Repr, DecidableEq

/-- `ALERT_COOLDOWN_MINUTES` default (app.py 104). -/
def ALERT_COOLDOWN_MINUTES : ℚ := 30

/-- `MINIMUM_DATA_POINTS_FOR_ALERT_PERCENTAGE` default 0.8
(app.py 106-108), written as 8/10. -/
def MINIMUM_DATA_POINTS_FOR_ALERT_PERCENTAGE : ℚ := Rat.divInt 8 10

/-- The cooldown gate (app.py 1517-1557).  `parseTs` abstracts the
`datetime.fromisoformat` / `strptime` chain the source tries on string
cells: `some t` when any accepted format parses the string, `none` when
all fail (in which case the source sets `last_triggered_dt = None` and
proceeds).  Returns `true` when the pair is skipped. -/
def cooldownSkip (parseTs : String → Option ℚ) (now cooldownMin : ℚ) :
    PyTimeVal → Bool
  | .absent => false
  | .str s =>
    if s == "" then false
    else
      match parseTs s with
      | some t => decide (ratDiv (ratSub now t) 60 < cooldownMin)
      | none => false
  | .dt t => decide (ratDiv (ratSub now t) 60 < cooldownMin)

/-- The sufficiency threshold (app.py 1571-1576):
`max(1, int(expected_points * coverage))` with
`expected_points = (window_minutes * 60) / interval`. -/
def minPoints (w interval : Nat) (coverage : ℚ) : Int :=
  max 1 (pyTrunc (ratMul (Rat.divInt ((w : Int) * 60) (interval : Int)) coverage))

/-- Observable effects of evaluating one (rule, server) pair: the email
notification issued (server, latest value, window values) and the
`last_triggered_at` timestamp written back. -/
structure PairEffects where
  email : Option (String × ℚ × List ℚ)
  setLastTriggered : Option ℚ
deriving Repr, DecidableEq

/-- One (rule, server) pair of the evaluation loop (app.py 1512-1633):
cooldown gate, window fetch (`fetch = none` models a fetch error),
sufficiency gate, and the sustained-violation trigger condition
`all(val > threshold)`. -/
def evalPair (parseTs : String → Option ℚ) (now cooldownMin coverage : ℚ)
    (interval : Nat) (rule : AlertRule) (server : String)
    (fetch : Option (List ℚ)) : PairEffects :=
  if cooldownSkip parseTs now cooldownMin rule.last_triggered_at then ⟨none, none⟩
  else
    match fetch with
    | none => ⟨none, none⟩
    | some values =>
      if (values.length : Int) < minPoints rule.time_window_minutes interval coverage then
        ⟨none, none⟩
      else
        if values.all (fun v => decide (rule.threshold_percentage < v)) then
          ⟨some (server, values.getLastD 0, values), some now⟩
        else ⟨none, none⟩

/-! ### The divInt-level operations agree with the field operations -/

lemma den_cast_ne_zero (a : ℚ) : ((a.den : ℚ)) ≠ 0 :=
  Nat.cast_ne_zero.mpr a.den_nz

lemma ratMul_eq (a b : ℚ) : ratMul a b = a * b := by
  unfold ratMul
  rw [Rat.divInt_eq_div]
  push_cast
  rw [div_eq_iff (mul_ne_zero (den_cast_ne_zero a) (den_cast_ne_zero b))]
  rw [show a * b * ((a.den : ℚ) * (b.den : ℚ)) = (a * (a.den : ℚ)) * (b * (b.den : ℚ)) by ring]
  rw [Rat.mul_den_eq_num, Rat.mul_den_eq_num]

lemma ratSub_eq (a b : ℚ) : ratSub a b = a - b := by
  unfold ratSub
  rw [Rat.divInt_eq_div]
  push_cast
  rw [div_eq_iff (mul_ne_zero (den_cast_ne_zero a) (den_cast_ne_zero b))]
  rw [show (a - b) * ((a.den : ℚ) * (b.den : ℚ)) =
      (a * (a.den : ℚ)) * (b.den : ℚ) - (a.den : ℚ) * (b * (b.den : ℚ)) by ring]
  rw [Rat.mul_den_eq_num, Rat.mul_den_eq_num]
  ring

lemma ratDiv_eq (a b : ℚ) : ratDiv a b = a / b := by
  by_cases hb : b = 0
  · subst hb
    unfold ratDiv
    simp
  · have hbn : ((b.num : ℚ)) ≠ 0 := Int.cast_ne_zero.mpr (Rat.num_ne_zero.mpr hb)
    unfold ratDiv
    rw [Rat.divInt_eq_div]
    push_cast
    rw [div_eq_div_iff (mul_ne_zero (den_cast_ne_zero a) hbn) hb]
    rw [show (a.num : ℚ) * (b.den : ℚ) * b = (a.num : ℚ) * (b * (b.den : ℚ)) by ring]
    rw [Rat.mul_den_eq_num]
    rw [show a * ((a.den : ℚ) * (b.num : ℚ)) = (a * (a.den : ℚ)) * (b.num : ℚ) by ring]
    rw [Rat.mul_den_eq_num]

lemma minPoints_spec (w interval : Nat) (cov : ℚ) (hcov : 0 ≤ cov) :
    minPoints w interval cov = max 1 ⌊(((w : ℚ) * 60) / (interval : ℚ)) * cov⌋ := by
  unfold minPoints pyTrunc
  have he : ratMul (Rat.divInt ((w : Int) * 60) (interval : Int)) cov =
      (((w : ℚ) * 60) / (interval : ℚ)) * cov := by
    rw [ratMul_eq, Rat.divInt_eq_div]
    push_cast
    ring
  rw [he, if_pos (mul_nonneg (div_nonneg (by positivity) (by positivity)) hcov)]

/-- C4: for a (rule, server) pair that passes the cooldown and
sufficiency gates, the alert triggers (email issued and
last_triggered_at written) iff every fetched window value is strictly
greater than the threshold. -/
theorem evaluator_sustained_c4 (parseTs : String → Option ℚ) (now cooldownMin coverage : ℚ)
    (interval : Nat) (rule : AlertRule) (server : String) (values : List ℚ)
    (hcd : cooldownSkip parseTs now cooldownMin rule.last_triggered_at = false)
    (hsuff : minPoints rule.time_window_minutes interval coverage ≤ (values.length : Int)) :
    ((evalPair parseTs now cooldownMin coverage interval rule server (some values)).email.isSome ↔
      ∀ v ∈ values, rule.threshold_percentage < v) ∧
    ((evalPair parseTs now cooldownMin coverage interval rule server
        (some values)).setLastTriggered.isSome ↔
      ∀ v ∈ values, rule.threshold_percentage < v) := by
  have hns : ¬ ((values.length : Int) < minPoints rule.time_window_minutes interval coverage) :=
    not_lt.mpr hsuff
  unfold evalPair
  rw [hcd]
  by_cases hall : values.all (fun v => decide (rule.threshold_percentage < v)) = true
  · have hforall : ∀ v ∈ values, rule.threshold_percentage < v := by
      intro v hv
      exact of_decide_eq_true (List.all_eq_true.mp hall v hv)
    simp [hns, hall]
    all_goals exact hforall
  · have hnforall : ¬ ∀ v ∈ values, rule.threshold_percentage < v := by
      intro hf
      exact hall (List.all_eq_true.mpr fun v hv => decide_eq_true (hf v hv))
    simp [hns, hall, hnforall]

/-- C4 witness: threshold 50 with window values [51, 55, 60] triggers;
[51, 49, 60] does not. -/
theorem evaluator_sustained_c4_witness :
    ((evalPair (fun _ => none) 0 30 (Rat.divInt 8 10) 60
        ⟨1, "r", "s", "cpu", 50, 3, "e@x", true, .absent⟩ "s"
        (some [51, 55, 60])).email.isSome) ∧
    ¬ ((evalPair (fun _ => none) 0 30 (Rat.divInt 8 10) 60
        ⟨1, "r", "s", "cpu", 50, 3, "e@x", true, .absent⟩ "s"
        (some [51, 49, 60])).email.isSome) :=
  ⟨(evaluator_sustained_c4 (fun _ => none) 0 30 (Rat.divInt 8 10) 60
      ⟨1, "r", "s", "cpu", 50, 3, "e@x", true, .absent⟩ "s" [51, 55, 60]
      rfl (by decide)).1.mpr (by decide),
   fun h =>
     absurd ((evaluator_sustained_c4 (fun _ => none) 0 30 (Rat.divInt 8 10) 60
       ⟨1, "r", "s", "cpu", 50, 3, "e@x", true, .absent⟩ "s" [51, 49, 60]
       rfl (by decide)).1.mp h 49 (by decide)) (by decide)⟩

/-- C5: the sufficiency gate computes
`required = max(1, floor(((window_minutes * 60) / interval) * coverage))`
(coverage defaulting to 0.8) and skips the pair whenever fewer values
were fetched; with window 5 min, interval 60 s, coverage 0.8 this gives
required = 4, so three all-above-threshold samples do not trigger while
four do. -/
theorem evaluator_sufficiency_c5 :
    (∀ (w interval : Nat) (cov : ℚ), 0 ≤ cov →
      minPoints w interval cov = max 1 ⌊(((w : ℚ) * 60) / (interval : ℚ)) * cov⌋) ∧
    minPoints 5 60 MINIMUM_DATA_POINTS_FOR_ALERT_PERCENTAGE = 4 ∧
    (∀ (parseTs : String → Option ℚ) (now cooldownMin coverage : ℚ) (interval : Nat)
      (rule : AlertRule) (server : String) (values : List ℚ),
      (values.length : Int) < minPoints rule.time_window_minutes interval coverage →
      evalPair parseTs now cooldownMin coverage interval rule server (some values) =
        ⟨none, none⟩) ∧
    evalPair (fun _ => none) 0 ALERT_COOLDOWN_MINUTES MINIMUM_DATA_POINTS_FOR_ALERT_PERCENTAGE 60
      ⟨2, "r5", "s", "cpu", 80, 5, "e@x", true, .absent⟩ "s" (some [90, 91, 92]) =
      ⟨none, none⟩ ∧
    (evalPair (fun _ => none) 0 ALERT_COOLDOWN_MINUTES MINIMUM_DATA_POINTS_FOR_ALERT_PERCENTAGE 60
      ⟨2, "r5", "s", "cpu", 80, 5, "e@x", true, .absent⟩ "s"
      (some [90, 91, 92, 93])).email.isSome := by
  refine ⟨fun w i cov hcov => minPoints_spec w i cov hcov, by decide, ?_, by decide, by decide⟩
  intro parseTs now cooldownMin coverage interval rule server values hlen
  unfold evalPair
  split
  · rfl
  · simp [hlen]

/-- C5 witness: the formula instance at window 5 / interval 60 /
coverage 0.8, and a concrete three-sample skip. -/
theorem evaluator_sufficiency_c5_witness :
    minPoints 5 60 MINIMUM_DATA_POINTS_FOR_ALERT_PERCENTAGE =
      max 1 ⌊(((5 : ℚ) * 60) / ((60 : ℚ))) * MINIMUM_DATA_POINTS_FOR_ALERT_PERCENTAGE⌋ ∧
    evalPair (fun _ => none) 0 30 MINIMUM_DATA_POINTS_FOR_ALERT_PERCENTAGE 60
      ⟨2, "r5", "s", "cpu", 80, 5, "e@x", true, .absent⟩ "s" (some [95, 96, 97]) =
      ⟨none, none⟩ :=
  ⟨evaluator_sufficiency_c5.1 5 60 _ (by decide),
   evaluator_sufficiency_c5.2.2.1 _ 0 30 _ 60 _ "s" [95, 96, 97] (by decide)⟩

/-- C6: a rule whose last_triggered_at resolves to a time within the
cooldown window is skipped with no notification and no state change,
regardless of the fetched values. -/
theorem evaluator_cooldown_c6 (parseTs : String → Option ℚ) (now cooldownMin coverage : ℚ)
    (interval : Nat) (rule : AlertRule) (server : String) (fetch : Option (List ℚ)) (t : ℚ)
    (hlast : rule.last_triggered_at = PyTimeVal.dt t ∨
      ∃ s, rule.last_triggered_at = PyTimeVal.str s ∧ s ≠ "" ∧ parseTs s = some t)
    (hcool : (now - t) / 60 < cooldownMin) :
    evalPair parseTs now cooldownMin coverage interval rule server fetch = ⟨none, none⟩ := by
  have heq : ratDiv (ratSub now t) 60 = (now - t) / 60 := by
    rw [ratSub_eq, ratDiv_eq]
  have hb : cooldownSkip parseTs now cooldownMin rule.last_triggered_at = true := by
    rcases hlast with h | ⟨s, hs, hne, hp⟩
    · rw [h]
      simp only [cooldownSkip, heq]
      exact decide_eq_true hcool
    · rw [hs]
      simp only [cooldownSkip, hp]
      rw [if_neg (by simpa using hne)]
      rw [heq]
      exact decide_eq_true hcool
  unfold evalPair
  rw [hb]
  simp

/-- C6 witness: last trigger 10 minutes ago, cooldown 30 minutes, all
window values above threshold: no effects. -/
theorem evaluator_cooldown_c6_witness :
    evalPair (fun _ => none) 600 ALERT_COOLDOWN_MINUTES MINIMUM_DATA_POINTS_FOR_ALERT_PERCENTAGE 60
      ⟨3, "r6", "s", "cpu", 50, 3, "e@x", true, .dt 0⟩ "s" (some [51, 55, 60]) =
      ⟨none, none⟩ :=
  evaluator_cooldown_c6 _ 600 ALERT_COOLDOWN_MINUTES _ 60 _ "s" (some [51, 55, 60]) 0
    (Or.inl rfl) (by norm_num [ALERT_COOLDOWN_MINUTES])

/-- C10: an enabled rule whose stored last_triggered_at string parses
under none of the accepted formats bypasses the cooldown gate: the pair
is evaluated exactly as if last_triggered_at were unset. -/
theorem evaluator_unparsable_c10 (parseTs : String → Option ℚ) (now cooldownMin coverage : ℚ)
    (interval : Nat) (rule : AlertRule) (server : String) (fetch : Option (List ℚ)) (s : String)
    (hs : rule.last_triggered_at = PyTimeVal.str s) (hp : parseTs s = none) :
    evalPair parseTs now cooldownMin coverage interval rule server fetch =
      evalPair parseTs now cooldownMin coverage interval
        { rule with last_triggered_at := PyTimeVal.absent } server fetch := by
  have h1 : cooldownSkip parseTs now cooldownMin rule.last_triggered_at = false := by
    rw [hs]
    simp only [cooldownSkip]
    by_cases he : s = ""
    · simp [he]
    · simp [he, hp]
  have h2 : cooldownSkip parseTs now cooldownMin
      ({ rule with last_triggered_at := PyTimeVal.absent } : AlertRule).last_triggered_at =
      false := rfl
  unfold evalPair
  rw [h1, h2]

/-- C10 witness: an unparsable timestamp string evaluates like an unset
one, and the pair still triggers. -/
theorem evaluator_unparsable_c10_witness :
    (evalPair (fun _ => none) 0 30 MINIMUM_DATA_POINTS_FOR_ALERT_PERCENTAGE 60
        ⟨4, "r10", "s", "cpu", 50, 3, "e@x", true, .str "not-a-timestamp"⟩ "s"
        (some [51, 55, 60]) =
      evalPair (fun _ => none) 0 30 MINIMUM_DATA_POINTS_FOR_ALERT_PERCENTAGE 60
        ⟨4, "r10", "s", "cpu", 50, 3, "e@x", true, .absent⟩ "s" (some [51, 55, 60])) ∧
    (evalPair (fun _ => none) 0 30 MINIMUM_DATA_POINTS_FOR_ALERT_PERCENTAGE 60
        ⟨4, "r10", "s", "cpu", 50, 3, "e@x", true, .str "not-a-timestamp"⟩ "s"
        (some [51, 55, 60])).email.isSome :=
  ⟨evaluator_unparsable_c10 _ _ _ _ _ _ _ _ "not-a-timestamp" rfl rfl, by decide⟩

/-! ### Sample storage and retention (`store_stats`, app.py 259-332,
SQLite branch) -/

/-- Retention cap (app.py line 54). -/
def MAX_HISTORICAL_ENTRIES : Nat := 1440

/-- One row of the `stats` table.  Timestamps are modelled as naturals
(the SQLite DATETIME strings order isomorphically). -/
structure StatRow where
  server_name : String
  timestamp : Nat
  cpu_percent : ℚ
  ram_percent : ℚ
  disk_percent : ℚ
deriving Repr, DecidableEq

/-- `SELECT * FROM stats WHERE server_name = s` in table order. -/
def serverRows (tbl : List StatRow) (s : String) : List StatRow :=
  tbl.filter (fun r => r.server_name == s)

/-- The timestamps of the rows for `s`, in table order. -/
def serverStamps (tbl : List StatRow) (s : String) : List Nat :=
  (serverRows tbl s).map StatRow.timestamp

instance : DecidableRel (fun a b : Nat => b ≤ a) := fun a b => Nat.decLe b a

/-- `ORDER BY timestamp DESC`. -/
def sortDesc (l : List Nat) : List Nat :=
  List.insertionSort (fun a b => b ≤ a) l

/-- The timestamp multiset selected by
`SELECT timestamp ... ORDER BY timestamp DESC LIMIT cap`. -/
def keptStamps (tbl : List StatRow) (s : String) (cap : Nat) : List Nat :=
  (sortDesc (serverStamps tbl s)).take cap

/-- The pruning DELETE of app.py 273-285: rows of `s` whose timestamp
is not among the kept timestamps are removed. -/
def pruneServer (tbl : List StatRow) (s : String) (cap : Nat) : List StatRow :=
  tbl.filter (fun r => !(r.server_name == s) || (keptStamps tbl s cap).contains r.timestamp)

/-- `store_stats` (app.py 259-332, SQLite branch): INSERT the new row,
then prune the rows of that server, in one transaction. -/
def store_stats (tbl : List StatRow) (s : String) (ts : Nat) (cpu ram disk : ℚ) : List StatRow :=
  pruneServer (tbl ++ [⟨s, ts, cpu, ram, disk⟩]) s MAX_HISTORICAL_ENTRIES

lemma bool_and_or_absorb (a b : Bool) : (a && (!a || b)) = (b && a) := by
  cases a <;> cases b <;> rfl

lemma map_filter_comp {α β : Type} (f : α → β) (p : β → Bool) (l : List α) :
    (l.filter (fun a => p (f a))).map f = (l.map f).filter p := by
  induction l with
  | nil => rfl
  | cons a tl ih =>
    by_cases h : p (f a) = true
    · simp [h, ih]
    · simp [h, ih]

lemma sortDesc_perm (l : List Nat) : (sortDesc l).Perm l :=
  List.perm_insertionSort _ l

/-- Length and content of the surviving rows for `s` after pruning,
under distinct per-server timestamps. -/
lemma prune_len_perm (tbl : List StatRow) (s : String) (cap : Nat)
    (hnd : (serverStamps tbl s).Nodup) :
    (serverStamps (pruneServer tbl s cap) s).Perm (keptStamps tbl s cap) ∧
    (serverRows (pruneServer tbl s cap) s).length = min cap (serverRows tbl s).length := by
  have hKL : ∀ x ∈ keptStamps tbl s cap, x ∈ serverStamps tbl s := fun x hx =>
    (sortDesc_perm _).subset ((List.take_sublist _ _).subset hx)
  have hKnd : (keptStamps tbl s cap).Nodup :=
    (List.take_sublist _ _).nodup ((sortDesc_perm _).nodup_iff.mpr hnd)
  have hrows : serverRows (pruneServer tbl s cap) s =
      (serverRows tbl s).filter (fun r => (keptStamps tbl s cap).contains r.timestamp) := by
    unfold serverRows pruneServer
    rw [List.filter_filter, List.filter_filter]
    apply List.filter_congr
    intro r _
    exact bool_and_or_absorb _ _
  have hstamps : serverStamps (pruneServer tbl s cap) s =
      (serverStamps tbl s).filter (fun x => (keptStamps tbl s cap).contains x) := by
    unfold serverStamps
    rw [hrows]
    exact map_filter_comp StatRow.timestamp (fun x => (keptStamps tbl s cap).contains x) _
  have hperm : (serverStamps (pruneServer tbl s cap) s).Perm (keptStamps tbl s cap) := by
    rw [hstamps]
    apply (List.perm_ext_iff_of_nodup (hnd.filter _) hKnd).mpr
    intro x
    constructor
    · intro hx
      exact ((List.mem_filter.mp hx).2 : _)
        |> fun h => by
          have := List.mem_filter.mp hx
          simpa using this.2
    · intro hx
      apply List.mem_filter.mpr
      refine ⟨hKL x hx, ?_⟩
      simpa using hx
  refine ⟨hperm, ?_⟩
  have hlen1 : (serverRows (pruneServer tbl s cap) s).length =
      (serverStamps (pruneServer tbl s cap) s).length := by
    unfold serverStamps
    rw [List.length_map]
  have hlen2 : (serverRows tbl s).length = (serverStamps tbl s).length := by
    unfold serverStamps
    rw [List.length_map]
  rw [hlen1, hlen2, hperm.length_eq]
  unfold keptStamps
  rw [List.length_take, (sortDesc_perm _).length_eq]

/-- C7 (amended): when the per-server timestamps (including the new
row's) are pairwise distinct, a `store_stats` write leaves exactly
`min cap total` rows for that server — hence at most the cap — and the
surviving timestamps are precisely the cap most-recent ones (the first
`cap` of the descending sort).  With duplicated timestamps the SQL
keeps every row sharing a kept timestamp (see the counterexample). -/
theorem store_stats_retention_c7 (tbl : List StatRow) (s : String) (ts : Nat) (cpu ram disk : ℚ)
    (hnd : (serverStamps (tbl ++ [⟨s, ts, cpu, ram, disk⟩]) s).Nodup) :
    (serverRows (store_stats tbl s ts cpu ram disk) s).length =
      min MAX_HISTORICAL_ENTRIES (serverRows (tbl ++ [⟨s, ts, cpu, ram, disk⟩]) s).length ∧
    (serverStamps (store_stats tbl s ts cpu ram disk) s).Perm
      (keptStamps (tbl ++ [⟨s, ts, cpu, ram, disk⟩]) s MAX_HISTORICAL_ENTRIES) := by
  have h := prune_len_perm (tbl ++ [⟨s, ts, cpu, ram, disk⟩]) s MAX_HISTORICAL_ENTRIES hnd
  exact ⟨h.2, h.1⟩

/-- C7 witness: a single write into an empty table. -/
theorem store_stats_retention_c7_witness :
    (serverRows (store_stats [] "S" 5 1 2 3) "S").length =
      min MAX_HISTORICAL_ENTRIES (serverRows ([] ++ [⟨"S", 5, 1, 2, 3⟩]) "S").length ∧
    (serverStamps (store_stats [] "S" 5 1 2 3) "S").Perm
      (keptStamps ([] ++ [⟨"S", 5, 1, 2, 3⟩]) "S" MAX_HISTORICAL_ENTRIES) :=
  store_stats_retention_c7 [] "S" 5 1 2 3 (by decide)

lemma store_stats_replicate (n : Nat) :
    store_stats (List.replicate n ⟨"S", 0, 0, 0, 0⟩) "S" 0 0 0 0 =
      List.replicate (n + 1) ⟨"S", 0, 0, 0, 0⟩ := by
  unfold store_stats
  rw [← List.replicate_succ']
  unfold pruneServer
  apply List.filter_eq_self.mpr
  intro r hr
  have hrr : r = ⟨"S", 0, 0, 0, 0⟩ := List.eq_of_mem_replicate hr
  subst hrr
  have hstamps : serverStamps (List.replicate (n + 1) ⟨"S", 0, 0, 0, 0⟩) "S" =
      List.replicate (n + 1) 0 := by
    unfold serverStamps serverRows
    rw [List.filter_replicate]
    simp
  have hkept : (0 : Nat) ∈ keptStamps (List.replicate (n + 1) ⟨"S", 0, 0, 0, 0⟩) "S"
      MAX_HISTORICAL_ENTRIES := by
    unfold keptStamps
    rw [hstamps]
    have hsorted : sortDesc (List.replicate (n + 1) (0 : Nat)) = List.replicate (n + 1) 0 :=
      List.Sorted.insertionSort_eq (List.pairwise_replicate.mpr (Or.inr (le_refl 0)))
    rw [hsorted, List.take_replicate]
    apply List.mem_replicate.mpr
    refine ⟨?_, rfl⟩
    have : 0 < min MAX_HISTORICAL_ENTRIES (n + 1) :=
      lt_min (by decide) (Nat.succ_pos n)
    omega
  simp [hkept]

lemma iterate_store_stats (n : Nat) :
    (fun t => store_stats t "S" 0 0 0 0)^[n] [] = List.replicate n ⟨"S", 0, 0, 0, 0⟩ := by
  induction n with
  | zero => rfl
  | succ k ih => rw [Function.iterate_succ_apply', ih, store_stats_replicate]

/-- C7 counterexample: 1441 writes for server "S" that share one
timestamp leave 1441 rows — the cap (1440) is exceeded, because the
DELETE keeps every row whose timestamp is among the kept timestamps. -/
theorem store_stats_retention_c7_counterexample :
    ¬ ((serverRows ((fun t => store_stats t "S" 0 0 0 0)^[1441] []) "S").length ≤
      MAX_HISTORICAL_ENTRIES) := by
  rw [iterate_store_stats]
  unfold serverRows
  rw [List.filter_replicate, if_pos (by decide), List.length_replicate]
  decide
